import Mathlib

/-!
Shallow embedding of the files_manager backend (controllers/AuthController.js,
controllers/FilesController.js, utils/redis.js) for verification.

Modelling conventions:
- MongoDB ObjectIds and their 24-hex-digit string forms are represented by
  `String`; `ObjectId(s)` / `oid.toString()` are the identity on that string.
- The `parentId` field stored on a file document is either the literal
  number `0` (root sentinel) or an ObjectId; this sum is `ParentRef`.
- `ObjectId(n)` applied to a JavaScript *number* `n` (bson 1.x) generates a
  fresh ObjectId whose timestamp is `n`; the generated id is passed in as an
  explicit parameter (`freshOid`) wherever the code performs this call.
- JS falsiness of string-valued expressions: `undefined`/`null` is `none`,
  and the empty string is also falsy; `truthy` collapses both to `none`.
- External library calls (sha1, base64 decode, uuidv4, Mongo id generation)
  are nondeterministic or opaque inputs and are passed as parameters.
- The redis cache is a list of (key, value, ttl) entries; the document store
  collections are lists of documents; `insertOne` appends, `findOne` returns
  the first match, `updateOne` updates the first match.
- The thumbnail queue (`fileQueue.add`) and the Content-Type response header
  are side effects outside every claim and are not modelled.
-/

/-- A redis cache entry: key, value and TTL in seconds (the model of
`redisClient.set k v d`, which performs SET then EXPIRE d). -/
structure CacheEntry where
  key : String
  value : String
  ttl : Nat
deriving Repr, DecidableEq

/-- A document of the `users` collection: `_id`, `email`, and the SHA1
digest stored in the `password` field. -/
structure UserDoc where
  id : String
  email : String
  password : String
deriving Repr, DecidableEq

/-- The value stored in / matched against the `parentId` field of a file
document: the literal number `0` (root sentinel) or an ObjectId. -/
inductive ParentRef where
  | rootZero : ParentRef
  | oid : String → ParentRef
deriving Repr, DecidableEq

/-- A document of the `files` collection.  `localPath` is `none` when the
document has no `localPath` field (folders). -/
structure FileDoc where
  id : String
  userId : String
  name : String
  type : String
  isPublic : Bool
  parentId : ParentRef
  localPath : Option String
deriving Repr, DecidableEq

/-- The mutable state visible to the controllers: the two document-store
collections, the redis cache, and the blob filesystem (path → bytes). -/
structure St where
  users : List UserDoc
  files : List FileDoc
  cache : List CacheEntry
  blobs : List (String × List Nat)
deriving Repr, DecidableEq

/-- Response bodies that the controllers produce. -/
inductive Body where
  | error : String → Body
  | token : String → Body
  | file : FileDoc → Body
  | files : List FileDoc → Body
  | bytes : List Nat → Body
  | empty : Body
deriving Repr, DecidableEq

/-- An HTTP response: status code and body. -/
structure Response where
  status : Nat
  body : Body
deriving Repr, DecidableEq

/-- `res.status(401).json({ error: 'Unauthorized' })`. -/
def unauthorized : Response := { status := 401, body := .error "Unauthorized" }

/-- `res.status(404).json({ error: 'Not found' })`. -/
def notFound : Response := { status := 404, body := .error "Not found" }

/-- JS falsiness for a string-or-null value: `null`/`undefined` and `""`
are falsy; a truthy value passes through. -/
def truthy : Option String → Option String
  | none => none
  | some s => if s = "" then none else some s

namespace RedisClient

/-- `redisClient.get key`: the value of the first entry with that key. -/
def get (cache : List CacheEntry) (key : String) : Option String :=
  (cache.find? (fun e => e.key == key)).map CacheEntry.value

/-- `redisClient.set key value duration`: SET then EXPIRE duration. -/
def set (cache : List CacheEntry) (key value : String) (duration : Nat) :
    List CacheEntry :=
  { key := key, value := value, ttl := duration } ::
    cache.filter (fun e => e.key ≠ key)

/-- `redisClient.del key`: removes the entry; no error when absent. -/
def del (cache : List CacheEntry) (key : String) : List CacheEntry :=
  cache.filter (fun e => e.key ≠ key)

end RedisClient

/-- The predicate of `findOne({ email, password: hashedPassword })`. -/
def userPred (email hashedPassword : String) (u : UserDoc) : Bool :=
  decide (u.email = email ∧ u.password = hashedPassword)

/-- The predicate of `findOne({ _id: ObjectId(fileId) })`. -/
def byId (fileId : String) (f : FileDoc) : Bool :=
  decide (f.id = fileId)

/-- The predicate of `findOne({ _id: ObjectId(fileId), userId: ObjectId(userId) })`. -/
def byIdAndUser (fileId userId : String) (f : FileDoc) : Bool :=
  decide (f.id = fileId ∧ f.userId = userId)

/-- Splitting a character list on a separator, accumulating the current
chunk (the recursion behind `jsSplit`). -/
def splitOnCharAux (sep : Char) : List Char → List Char → List (List Char)
  | [], acc => [acc.reverse]
  | c :: rest, acc =>
    if c = sep then acc.reverse :: splitOnCharAux sep rest []
    else splitOnCharAux sep rest (c :: acc)

/-- JS `String.prototype.split` for a single-character separator (the code
only ever splits on `' '` and `':'`): `"a::b".split(':') = ["a","","b"]`,
`"".split(':') = [""]`. -/
def jsSplit (s : String) (sep : Char) : List String :=
  (splitOnCharAux sep s.data []).map String.mk

/-- Whether the first list is a leading segment of the second
(the recursion behind `jsStartsWith`). -/
def charsPrefix : List Char → List Char → Bool
  | [], _ => true
  | _ :: _, [] => false
  | p :: ps, c :: cs => if p = c then charsPrefix ps cs else false

/-- JS `String.prototype.startsWith`. -/
def jsStartsWith (s pre : String) : Bool := charsPrefix pre.data s.data

/-- The credential pipeline of `getConnect`: `authHeader.split(' ')[1]` is
base64-decoded (`Buffer.from(·, 'base64').toString('ascii')`) and the
result split on ':'; the JS destructuring `[email, password]` reads
elements 0 and 1 of this list (`undefined`, modelled `""`, when short). -/
def connectParts (h : String) (b64decode : String → String) : List String :=
  jsSplit (b64decode ((jsSplit h ' ').getD 1 "")) ':'

/-- `AuthController.getConnect`.  `b64decode` models
`Buffer.from(·, 'base64').toString('ascii')`, `sha1` the sha1 library, and
`freshToken` the `uuidv4()` call. -/
def getConnect (st : St) (authHeader : Option String)
    (b64decode : String → String) (sha1 : String → String)
    (freshToken : String) : Response × St :=
  match authHeader with
  | none => (unauthorized, st)
  | some h =>
    if ¬ jsStartsWith h "Basic " then (unauthorized, st)
    else
      let parts := connectParts h b64decode
      if parts.getD 0 "" = "" ∨ parts.length < 2 ∨ parts.getD 1 "" = "" then
        (unauthorized, st)
      else
        let hashedPassword := sha1 (parts.getD 1 "")
        match st.users.find? (userPred (parts.getD 0 "") hashedPassword) with
        | none => (unauthorized, st)
        | some user =>
          ({ status := 200, body := .token freshToken },
           { st with cache :=
               RedisClient.set st.cache ("auth_" ++ freshToken) user.id 86400 })

/-- `AuthController.getDisconnect`. -/
def getDisconnect (st : St) (token : Option String) : Response × St :=
  match truthy token with
  | none => (unauthorized, st)
  | some t =>
    match truthy (RedisClient.get st.cache ("auth_" ++ t)) with
    | none => (unauthorized, st)
    | some _ =>
      ({ status := 204, body := .empty },
       { st with cache := RedisClient.del st.cache ("auth_" ++ t) })

/-- The body of a `POST /files` request.  A missing or empty `name`, `type`
or `data` is modelled by `""` (both are JS-falsy in the validation). -/
structure UploadBody where
  name : String
  type : String
  parentId : ParentRef
  isPublic : Bool
  data : String
deriving Repr, DecidableEq

/-- The parent check of `FilesController.postUpload` (the `parentId !== 0`
block): `none` when creation may proceed, `some r` when it fails with `r`. -/
def parentCheck (files : List FileDoc) : ParentRef → Option Response
  | .rootZero => none
  | .oid pid =>
    match files.find? (byId pid) with
    | none => some { status := 400, body := .error "Parent not found" }
    | some parentFile =>
      if parentFile.type = "folder" then none
      else some { status := 400, body := .error "Parent is not a folder" }

/-- `FilesController.postUpload`.  `freshId` models the Mongo-generated
`insertedId`, `freshName` the `uuidv4()` blob name, `folderPath` the
`FOLDER_PATH` environment value, and `b64decodeBytes` the
`Buffer.from(data, 'base64')` decoding. -/
def postUpload (st : St) (token : Option String) (body : UploadBody)
    (freshId : String) (freshName : String) (folderPath : String)
    (b64decodeBytes : String → List Nat) : Response × St :=
  match truthy token with
  | none => (unauthorized, st)
  | some t =>
    match truthy (RedisClient.get st.cache ("auth_" ++ t)) with
    | none => (unauthorized, st)
    | some userId =>
      if body.name = "" then
        ({ status := 400, body := .error "Missing name" }, st)
      else if ¬ (["folder", "file", "image"].contains body.type) then
        ({ status := 400, body := .error "Missing type" }, st)
      else if body.data = "" ∧ body.type ≠ "folder" then
        ({ status := 400, body := .error "Missing data" }, st)
      else
        match parentCheck st.files body.parentId with
        | some r => (r, st)
        | none =>
          let fileDocument : FileDoc :=
            { id := freshId, userId := userId, name := body.name,
              type := body.type, isPublic := body.isPublic,
              parentId := body.parentId, localPath := none }
          if body.type = "folder" then
            ({ status := 201, body := .file fileDocument },
             { st with files := st.files ++ [fileDocument] })
          else
            let localPath := folderPath ++ "/" ++ freshName
            let fileDoc2 := { fileDocument with localPath := some localPath }
            ({ status := 201, body := .file fileDoc2 },
             { st with files := st.files ++ [fileDoc2],
                       blobs := st.blobs ++ [(localPath, b64decodeBytes body.data)] })

/-- `FilesController.getShow` (read-only, returns just the response). -/
def getShow (st : St) (token : Option String) (fileId : String) : Response :=
  match truthy token with
  | none => unauthorized
  | some t =>
    match truthy (RedisClient.get st.cache ("auth_" ++ t)) with
    | none => unauthorized
    | some userId =>
      match st.files.find? (byIdAndUser fileId userId) with
      | none => notFound
      | some file => { status := 200, body := .file file }

/-- The `$match` key that `FilesController.getIndex` builds for `parentId`:
`req.query.parentId || 0`, then `parentId === '0' ? 0 : ObjectId(parentId)`.
When the query parameter is absent (or empty), the default is the *number*
`0`, which is not `=== '0'`, so `ObjectId(0)` generates a fresh ObjectId
(`freshOid`) — not the root sentinel. -/
def indexMatchKey (parentIdParam : Option String) (freshOid : String) :
    ParentRef :=
  match truthy parentIdParam with
  | none => .oid freshOid
  | some s => if s = "0" then .rootZero else .oid s

/-- The aggregation filter of `getIndex`: exact `parentId` and `userId`. -/
def indexPred (key : ParentRef) (userId : String) (f : FileDoc) : Bool :=
  decide (f.parentId = key ∧ f.userId = userId)

/-- `FilesController.getIndex` (read-only).  `page` models
`parseInt(req.query.page, 10) || 0` for a non-negative page parameter. -/
def getIndex (st : St) (token : Option String) (parentIdParam : Option String)
    (page : Nat) (freshOid : String) : Response :=
  match truthy token with
  | none => unauthorized
  | some t =>
    match truthy (RedisClient.get st.cache ("auth_" ++ t)) with
    | none => unauthorized
    | some userId =>
      let pageSize := 20
      let key := indexMatchKey parentIdParam freshOid
      let matched := st.files.filter (indexPred key userId)
      { status := 200,
        body := .files ((matched.drop (page * pageSize)).take pageSize) }

/-- Mongo `updateOne`: applies `upd` to the first document satisfying `p`. -/
def updateFirst (p : FileDoc → Bool) (upd : FileDoc → FileDoc) :
    List FileDoc → List FileDoc
  | [] => []
  | f :: rest =>
    if p f then upd f :: rest else f :: updateFirst p upd rest

/-- The shared body of `putPublish` / `putUnpublish`: scoped lookup, then
`updateOne({_id, userId}, {$set: {isPublic: v}})`, then an *unscoped*
re-read `findOne({_id})` whose result is returned. -/
def putVisibility (st : St) (token : Option String) (fileId : String)
    (v : Bool) : Response × St :=
  match truthy token with
  | none => (unauthorized, st)
  | some t =>
    match truthy (RedisClient.get st.cache ("auth_" ++ t)) with
    | none => (unauthorized, st)
    | some userId =>
      match st.files.find? (byIdAndUser fileId userId) with
      | none => (notFound, st)
      | some _ =>
        let files2 := updateFirst (byIdAndUser fileId userId)
          (fun f => { f with isPublic := v }) st.files
        let st2 := { st with files := files2 }
        match files2.find? (byId fileId) with
        | none => ({ status := 200, body := .empty }, st2)
        | some updatedFile =>
          ({ status := 200, body := .file updatedFile }, st2)

/-- `FilesController.putPublish`. -/
def putPublish (st : St) (token : Option String) (fileId : String) :
    Response × St :=
  putVisibility st token fileId true

/-- `FilesController.putUnpublish`. -/
def putUnpublish (st : St) (token : Option String) (fileId : String) :
    Response × St :=
  putVisibility st token fileId false

/-- `FilesController.getFile` (read-only).  The filesystem read
(`fsPromises.readFile`) is the lookup in `st.blobs`; a read failure
(including a missing `localPath` field, where `readFile(undefined)` throws)
is the `catch` branch returning 404. -/
def getFile (st : St) (token : Option String) (fileId : String)
    (size : Option String) : Response :=
  match st.files.find? (byId fileId) with
  | none => notFound
  | some file =>
    let userId : Option String :=
      match truthy token with
      | none => none
      | some t => RedisClient.get st.cache ("auth_" ++ t)
    let ownerOk : Bool :=
      match userId with
      | none => false
      | some v => v ≠ "" && v == file.userId
    if !file.isPublic && !ownerOk then notFound
    else if file.type = "folder" then
      { status := 400, body := .error "A folder doesn't have content" }
    else
      match file.localPath with
      | none => notFound
      | some basePath =>
        let filePath :=
          match size with
          | some s =>
            if ["100", "250", "500"].contains s then basePath ++ "_" ++ s
            else basePath
          | none => basePath
        match st.blobs.find? (fun b => b.1 == filePath) with
        | none => notFound
        | some b => { status := 200, body := .bytes b.2 }

/-! ### Helper lemmas -/

/-- Deleting a key removes it: a subsequent GET of the same key is `none`. -/
theorem get_del_self (c : List CacheEntry) (k : String) :
    RedisClient.get (RedisClient.del c k) k = none := by
  simp [RedisClient.get, RedisClient.del, List.find?_eq_none]

/-- When the first document matching an id also carries userId `f.userId`,
the owner-scoped lookup finds the same document. -/
theorem find?_byIdAndUser_of_byId (l : List FileDoc) (f : FileDoc) (fid : String)
    (h : l.find? (byId fid) = some f) :
    l.find? (byIdAndUser fid f.userId) = some f := by
  induction l with
  | nil => simp at h
  | cons a l ih =>
    by_cases ha : byId fid a
    · rw [List.find?_cons_of_pos _ ha] at h
      injection h with h2
      subst h2
      have ha' : a.id = fid := by simpa [byId] using ha
      have hp : byIdAndUser fid a.userId a = true := by
        simp [byIdAndUser, ha']
      rw [List.find?_cons_of_pos _ hp]
    · rw [List.find?_cons_of_neg _ ha] at h
      have hn : ¬ (byIdAndUser fid f.userId a = true) := by
        simp only [byIdAndUser, decide_eq_true_eq]
        intro h1
        exact absurd (by simp [byId, h1.1]) ha
      rw [List.find?_cons_of_neg _ hn]
      exact ih h

/-- After `updateOne({_id, userId}, {$set: {isPublic := v}})`, the unscoped
re-read by id returns the updated document. -/
theorem updateFirst_find?_byId (l : List FileDoc) (f : FileDoc) (fid : String)
    (v : Bool) (h : l.find? (byId fid) = some f) :
    (updateFirst (byIdAndUser fid f.userId)
        (fun g => { g with isPublic := v }) l).find? (byId fid) =
      some { f with isPublic := v } := by
  induction l with
  | nil => simp at h
  | cons a l ih =>
    by_cases ha : byId fid a
    · rw [List.find?_cons_of_pos _ ha] at h
      injection h with h2
      subst h2
      have ha' : a.id = fid := by simpa [byId] using ha
      have hp : byIdAndUser fid a.userId a = true := by
        simp [byIdAndUser, ha']
      have hb : byId fid { a with isPublic := v } = true := by
        simp [byId, ha']
      simp only [updateFirst]
      rw [if_pos hp, List.find?_cons_of_pos _ hb]
    · rw [List.find?_cons_of_neg _ ha] at h
      have hn : ¬ (byIdAndUser fid f.userId a = true) := by
        simp only [byIdAndUser, decide_eq_true_eq]
        intro h1
        exact absurd (by simp [byId, h1.1]) ha
      simp only [updateFirst]
      rw [if_neg hn, List.find?_cons_of_neg _ ha]
      exact ih h

/-- A visibility update never touches the `localPath` of any document. -/
theorem updateFirst_map_localPath (p : FileDoc → Bool) (v : Bool)
    (l : List FileDoc) :
    (updateFirst p (fun g => { g with isPublic := v }) l).map FileDoc.localPath
      = l.map FileDoc.localPath := by
  induction l with
  | nil => rfl
  | cons a l ih =>
    by_cases ha : p a
    · simp [updateFirst, ha]
    · simp [updateFirst, ha, ih]

/-! ### Concrete states used by counterexamples and witnesses -/

/-- A state holding one live session `auth_tC2 → uC2`. -/
def cStC2 : St :=
  { users := [], files := [],
    cache := [{ key := "auth_tC2", value := "uC2", ttl := 86400 }],
    blobs := [] }

/-- A state holding one private folder `d5` owned by `u5`, with the owner
session `auth_t5 → u5` and a foreign session `auth_tOther5 → uOther5`. -/
def cStC5 : St :=
  { users := [],
    files := [{ id := "d5", userId := "u5", name := "Docs", type := "folder",
                isPublic := false, parentId := .rootZero, localPath := none }],
    cache := [{ key := "auth_t5", value := "u5", ttl := 86400 },
              { key := "auth_tOther5", value := "uOther5", ttl := 86400 }],
    blobs := [] }

/-! ### Claims -/

/-- C2 counterexample: revoke (getDisconnect) is not idempotent as claimed.
In a state whose cache holds the session `auth_tC2`, the first disconnect
succeeds with 204, but the second disconnect with the same token returns the
error 401 Unauthorized, contradicting "two consecutive revoke calls with the
same token never return an error on the second call". -/
theorem getDisconnect_second_call_errors :
    (getDisconnect cStC2 (some "tC2")).1.status = 204 ∧
    (getDisconnect (getDisconnect cStC2 (some "tC2")).2 (some "tC2")).1 =
      { status := 401, body := .error "Unauthorized" } :=
  ⟨rfl, rfl⟩

/-- C2 (amended): the underlying cache delete is idempotent (deleting an
absent key is not an error and changes nothing), but the `getDisconnect`
endpoint rejects an absent or already-revoked token with 401 Unauthorized;
consequently the second of two consecutive disconnect calls with the same
token always returns 401. -/
theorem getDisconnect_revocation_amended (c : List CacheEntry) (k : String)
    (st : St) (t : String) :
    RedisClient.del (RedisClient.del c k) k = RedisClient.del c k ∧
    (RedisClient.get st.cache ("auth_" ++ t) = none →
      getDisconnect st (some t) = (unauthorized, st)) ∧
    (getDisconnect (getDisconnect st (some t)).2 (some t)).1 = unauthorized := by
  refine ⟨?_, ?_, ?_⟩
  · simp [RedisClient.del, List.filter_filter]
  · intro h
    by_cases ht : t = "" <;> simp [getDisconnect, truthy, ht, h]
  · by_cases ht : t = ""
    · simp [getDisconnect, truthy, ht]
    · cases hg : RedisClient.get st.cache ("auth_" ++ t) with
      | none => simp [getDisconnect, truthy, ht, hg]
      | some v =>
        by_cases hv : v = ""
        · simp [getDisconnect, truthy, ht, hg, hv]
        · simp [getDisconnect, truthy, ht, hg, hv, get_del_self]

/-- Witness for the amended C2 theorem, at the concrete state `cStC2` and
the absent token "absent". -/
theorem getDisconnect_revocation_amended_witness :
    getDisconnect cStC2 (some "absent") = (unauthorized, cStC2) :=
  (getDisconnect_revocation_amended [] "k" cStC2 "absent").2.1 (by decide)

/-- C5 counterexample: the data endpoint does not return 400 for *every*
requester of a folder.  For the private folder `d5` of `cStC5` requested
with no token, the visibility gate fires first and the response is
404 "Not found", not the claimed 400 UnsupportedOperation. -/
theorem getFile_private_folder_anonymous_404 :
    (cStC5.files.find? (byId "d5")).map FileDoc.type = some "folder" ∧
    getFile cStC5 none "d5" none =
      { status := 404, body := .error "Not found" } ∧
    (getFile cStC5 none "d5" none).status ≠ 400 :=
  ⟨rfl, rfl, by decide⟩

/-- C5 (amended): for every stored folder node, a data request returns
400 "A folder doesn't have content" for every requester that passes the
visibility gate — the folder is public, or the request carries a valid
token of the folder's owner; a private folder requested with no token, or
with a token that resolves to no session or to a non-owner identity,
instead returns 404. -/
theorem getFile_folder_content_amended (st : St) (fid : String)
    (file : FileDoc) (token : Option String) (size : Option String)
    (hfind : st.files.find? (byId fid) = some file)
    (htype : file.type = "folder") :
    ((file.isPublic = true ∨
        (∃ t, token = some t ∧ t ≠ "" ∧
          RedisClient.get st.cache ("auth_" ++ t) = some file.userId ∧
          file.userId ≠ "")) →
      getFile st token fid size =
        { status := 400, body := .error "A folder doesn't have content" }) ∧
    (file.isPublic = false → getFile st none fid size = notFound) ∧
    (file.isPublic = false →
      ∀ t2, (RedisClient.get st.cache ("auth_" ++ t2) = none ∨
          ∃ v, RedisClient.get st.cache ("auth_" ++ t2) = some v ∧
            v ≠ file.userId) →
        getFile st (some t2) fid size = notFound) := by
  refine ⟨?_, ?_, ?_⟩
  · rintro (hpub | ⟨t, htok, ht, hget, huid⟩)
    · simp [getFile, hfind, hpub, htype]
    · subst htok
      simp [getFile, hfind, truthy, ht, hget, huid, htype]
  · intro hpriv
    simp [getFile, hfind, truthy, hpriv]
  · intro hpriv t2 h
    by_cases ht2 : t2 = ""
    · simp [getFile, hfind, truthy, ht2, hpriv]
    · rcases h with hg | ⟨v, hg, hv⟩
      · simp [getFile, hfind, truthy, ht2, hg, hpriv]
      · simp [getFile, hfind, truthy, ht2, hg, hpriv, hv]

/-- C7: creation validation runs in order — missing name, then missing or
invalid type, then missing data for a non-folder type — each failing with
the corresponding 400 error, and the state (in particular the `files`
collection) is unchanged, so no node is persisted. -/
theorem postUpload_validation (st : St) (t uid : String) (body : UploadBody)
    (freshId freshName folderPath : String) (dec : String → List Nat)
    (ht : t ≠ "")
    (hget : RedisClient.get st.cache ("auth_" ++ t) = some uid)
    (huid : uid ≠ "") :
    (body.name = "" →
      postUpload st (some t) body freshId freshName folderPath dec =
        ({ status := 400, body := .error "Missing name" }, st)) ∧
    (body.name ≠ "" → ¬ body.type ∈ (["folder", "file", "image"] : List String) →
      postUpload st (some t) body freshId freshName folderPath dec =
        ({ status := 400, body := .error "Missing type" }, st)) ∧
    (body.name ≠ "" → body.type ∈ (["folder", "file", "image"] : List String) →
      body.type ≠ "folder" → body.data = "" →
      postUpload st (some t) body freshId freshName folderPath dec =
        ({ status := 400, body := .error "Missing data" }, st)) := by
  refine ⟨?_, ?_, ?_⟩
  · intro hname
    simp [postUpload, truthy, ht, hget, huid, hname]
  · intro hname htype
    simp [postUpload, truthy, ht, hget, huid, hname, htype]
  · intro hname htype htf hdata
    simp [postUpload, truthy, ht, hget, huid, hname, htype, htf, hdata]

/-- A state holding only the live session `auth_t7 → u7`. -/
def cStC7 : St :=
  { users := [], files := [],
    cache := [{ key := "auth_t7", value := "u7", ttl := 86400 }], blobs := [] }

/-- Witness for C7: type "file" with no data yields 400 Missing data and an
unchanged state. -/
theorem postUpload_validation_witness :
    postUpload cStC7 (some "t7")
      { name := "a.txt", type := "file", parentId := .rootZero,
        isPublic := false, data := "" } "idw" "uuidw" "/tmp/files_manager"
      (fun _ => []) =
      ({ status := 400, body := .error "Missing data" }, cStC7) :=
  (postUpload_validation cStC7 "t7" "u7"
      { name := "a.txt", type := "file", parentId := .rootZero,
        isPublic := false, data := "" } "idw" "uuidw" "/tmp/files_manager"
      (fun _ => []) (by decide) (by decide) (by decide)).2.2
    (by decide) (by decide) (by decide) (by decide)

/-- Success shape of `postUpload` under a resolvable folder parent: the
response is 201 and exactly one node is appended, owned by the requester
and recording the requested parent. -/
theorem postUpload_success_aux (st : St) (t uid pid : String)
    (body : UploadBody) (freshId freshName folderPath : String)
    (dec : String → List Nat) (pf : FileDoc)
    (ht : t ≠ "") (hget : RedisClient.get st.cache ("auth_" ++ t) = some uid)
    (huid : uid ≠ "")
    (hname : body.name ≠ "")
    (htype : body.type ∈ (["folder", "file", "image"] : List String))
    (hdata : body.data ≠ "" ∨ body.type = "folder")
    (hpid : body.parentId = .oid pid)
    (hfind : st.files.find? (byId pid) = some pf)
    (hft : pf.type = "folder") :
    (postUpload st (some t) body freshId freshName folderPath dec).1.status
        = 201 ∧
    ∃ d, (postUpload st (some t) body freshId freshName folderPath
            dec).2.files = st.files ++ [d] ∧
      d.parentId = .oid pid ∧ d.userId = uid := by
  have hd : ¬ (body.data = "" ∧ body.type ≠ "folder") := by
    rcases hdata with h | h
    · exact fun hc => h hc.1
    · exact fun hc => hc.2 h
  by_cases hf : body.type = "folder"
  · simp [postUpload, truthy, ht, hget, huid, hname, htype, hd,
      parentCheck, hpid, hfind, hft, hf]
  · have hdd : body.data ≠ "" := by
      rcases hdata with h | h
      · exact h
      · exact absurd h hf
    simp [postUpload, truthy, ht, hget, huid, hname, htype, hd,
      parentCheck, hpid, hfind, hft, hf, hdd]

/-- C3: hierarchy integrity on create.  For an authenticated, otherwise
valid request whose parentId is not the root sentinel: an unresolvable
parentId yields 400 "Parent not found", a parent that is not a folder
yields 400 "Parent is not a folder" (state unchanged in both cases), a
folder parent yields 201 with the created node recording that folder as
its parentId, and a 201 can only happen when the parent is a folder. -/
theorem postUpload_parent_integrity (st : St) (t uid pid : String)
    (body : UploadBody) (freshId freshName folderPath : String)
    (dec : String → List Nat)
    (ht : t ≠ "") (hget : RedisClient.get st.cache ("auth_" ++ t) = some uid)
    (huid : uid ≠ "")
    (hname : body.name ≠ "")
    (htype : body.type ∈ (["folder", "file", "image"] : List String))
    (hdata : body.data ≠ "" ∨ body.type = "folder")
    (hpid : body.parentId = .oid pid) :
    (st.files.find? (byId pid) = none →
      postUpload st (some t) body freshId freshName folderPath dec =
        ({ status := 400, body := .error "Parent not found" }, st)) ∧
    (∀ pf, st.files.find? (byId pid) = some pf → pf.type ≠ "folder" →
      postUpload st (some t) body freshId freshName folderPath dec =
        ({ status := 400, body := .error "Parent is not a folder" }, st)) ∧
    (∀ pf, st.files.find? (byId pid) = some pf → pf.type = "folder" →
      (postUpload st (some t) body freshId freshName folderPath dec).1.status
          = 201 ∧
      ∃ d, (postUpload st (some t) body freshId freshName folderPath
              dec).2.files = st.files ++ [d] ∧
        d.parentId = .oid pid ∧ d.userId = uid) ∧
    ((postUpload st (some t) body freshId freshName folderPath dec).1.status
        = 201 →
      ∃ pf, st.files.find? (byId pid) = some pf ∧ pf.type = "folder") := by
  have hd : ¬ (body.data = "" ∧ body.type ≠ "folder") := by
    rcases hdata with h | h
    · exact fun hc => h hc.1
    · exact fun hc => hc.2 h
  refine ⟨?_, ?_, ?_, ?_⟩
  · intro hfind
    simp [postUpload, truthy, ht, hget, huid, hname, htype, hd,
      parentCheck, hpid, hfind]
  · intro pf hfind hft
    simp [postUpload, truthy, ht, hget, huid, hname, htype, hd,
      parentCheck, hpid, hfind, hft]
  · intro pf hfind hft
    exact postUpload_success_aux st t uid pid body freshId freshName
      folderPath dec pf ht hget huid hname htype hdata hpid hfind hft
  · intro h201
    cases hfind : st.files.find? (byId pid) with
    | none =>
      rw [(by simp [postUpload, truthy, ht, hget, huid, hname, htype, hd,
        parentCheck, hpid, hfind] :
        postUpload st (some t) body freshId freshName folderPath dec =
          ({ status := 400, body := .error "Parent not found" }, st))] at h201
      simp at h201
    | some pf =>
      by_cases hft : pf.type = "folder"
      · exact ⟨pf, rfl, hft⟩
      · rw [(by simp [postUpload, truthy, ht, hget, huid, hname, htype, hd,
          parentCheck, hpid, hfind, hft] :
          postUpload st (some t) body freshId freshName folderPath dec =
            ({ status := 400, body := .error "Parent is not a folder" }, st))]
          at h201
        simp at h201

/-- A folder owned by `uOther3`, the parent for the C3 witness. -/
def folderC3 : FileDoc :=
  { id := "d3", userId := "uOther3", name := "Docs", type := "folder",
    isPublic := false, parentId := .rootZero, localPath := none }

/-- A state with the folder `d3` and the live session `auth_t3 → u3`. -/
def cStC3 : St :=
  { users := [], files := [folderC3],
    cache := [{ key := "auth_t3", value := "u3", ttl := 86400 }], blobs := [] }

/-- The valid upload body used by the C3 witness. -/
def bodyC3 : UploadBody :=
  { name := "b.txt", type := "file", parentId := .oid "d3",
    isPublic := false, data := "aGk=" }

/-- Witness for C3: creating a file under the existing folder `d3` succeeds
with 201 and the created node records `d3` as its parentId. -/
theorem postUpload_parent_integrity_witness :
    (postUpload cStC3 (some "t3") bodyC3 "f3" "uuid3" "/tmp/files_manager"
        (fun _ => [104, 105])).1.status = 201 ∧
    ∃ d, (postUpload cStC3 (some "t3") bodyC3 "f3" "uuid3"
            "/tmp/files_manager" (fun _ => [104, 105])).2.files =
        cStC3.files ++ [d] ∧
      d.parentId = .oid "d3" ∧ d.userId = "u3" :=
  (postUpload_parent_integrity cStC3 "t3" "u3" "d3" bodyC3 "f3" "uuid3"
      "/tmp/files_manager" (fun _ => [104, 105]) (by decide) (by decide)
      (by decide) (by decide) (by decide) (by decide) (by decide)).2.2.1
    folderC3 (by decide) (by decide)

/-- C10: parent ownership is not checked on create.  For an authenticated
user and an existing *foreign-owned* folder parent, an otherwise valid
creation request passes parent validation and succeeds with 201, placing
the new node (owned by the requester) under the foreign folder. -/
theorem postUpload_foreign_parent (st : St) (t uid pid : String)
    (body : UploadBody) (freshId freshName folderPath : String)
    (dec : String → List Nat) (pf : FileDoc)
    (ht : t ≠ "") (hget : RedisClient.get st.cache ("auth_" ++ t) = some uid)
    (huid : uid ≠ "")
    (hname : body.name ≠ "")
    (htype : body.type ∈ (["folder", "file", "image"] : List String))
    (hdata : body.data ≠ "" ∨ body.type = "folder")
    (hpid : body.parentId = .oid pid)
    (hfind : st.files.find? (byId pid) = some pf)
    (hft : pf.type = "folder")
    (hforeign : pf.userId ≠ uid) :
    (postUpload st (some t) body freshId freshName folderPath dec).1.status
        = 201 ∧
    ∃ d, (postUpload st (some t) body freshId freshName folderPath
            dec).2.files = st.files ++ [d] ∧
      d.userId = uid ∧ d.parentId = .oid pid := by
  obtain ⟨h1, d, h2, h3, h4⟩ := postUpload_success_aux st t uid pid body
    freshId freshName folderPath dec pf ht hget huid hname htype hdata
    hpid hfind hft
  exact ⟨h1, d, h2, h4, h3⟩

/-- A folder owned by `uB`, foreign to the requester `uA` of the C10 witness. -/
def folderC10 : FileDoc :=
  { id := "dB", userId := "uB", name := "BFolder", type := "folder",
    isPublic := false, parentId := .rootZero, localPath := none }

/-- A state with the foreign folder `dB` and the live session `auth_tA → uA`. -/
def cStC10 : St :=
  { users := [], files := [folderC10],
    cache := [{ key := "auth_tA", value := "uA", ttl := 86400 }], blobs := [] }

/-- The upload body used by the C10 witness: `uA` creates under `uB`'s folder. -/
def bodyC10 : UploadBody :=
  { name := "mine.txt", type := "file", parentId := .oid "dB",
    isPublic := false, data := "aGk=" }

/-- Witness for C10: user `uA` creates a node under `uB`'s folder `dB`;
the request succeeds with 201 and the node lands under `dB`. -/
theorem postUpload_foreign_parent_witness :
    (postUpload cStC10 (some "tA") bodyC10 "fA" "uuidA" "/tmp/files_manager"
        (fun _ => [104, 105])).1.status = 201 ∧
    ∃ d, (postUpload cStC10 (some "tA") bodyC10 "fA" "uuidA"
            "/tmp/files_manager" (fun _ => [104, 105])).2.files =
        cStC10.files ++ [d] ∧
      d.userId = "uA" ∧ d.parentId = .oid "dB" :=
  postUpload_foreign_parent cStC10 "tA" "uA" "dB" bodyC10 "fA" "uuidA"
    "/tmp/files_manager" (fun _ => [104, 105]) folderC10 (by decide)
    (by decide) (by decide) (by decide) (by decide) (by decide) (by decide)
    (by decide) (by decide) (by decide)

/-- C6: no existence leakage on getShow.  For an authenticated requester,
every id that either resolves to no node or only to nodes owned by other
users produces the identical 404 "Not found" response, and a 200 response
can only carry a node of the store owned by the requester. -/
theorem getShow_no_leakage (st : St) (t uid fid : String)
    (ht : t ≠ "") (hget : RedisClient.get st.cache ("auth_" ++ t) = some uid)
    (huid : uid ≠ "") :
    ((∀ f ∈ st.files, f.id = fid → f.userId ≠ uid) →
      getShow st (some t) fid = notFound) ∧
    (∀ f, getShow st (some t) fid = { status := 200, body := .file f } →
      f ∈ st.files ∧ f.id = fid ∧ f.userId = uid) := by
  constructor
  · intro h
    have hfind : st.files.find? (byIdAndUser fid uid) = none := by
      rw [List.find?_eq_none]
      intro f hf
      simp only [byIdAndUser, decide_eq_true_eq]
      rintro ⟨h1, h2⟩
      exact h f hf h1 h2
    simp [getShow, truthy, ht, hget, huid, hfind]
  · intro f hresp
    cases hfind : st.files.find? (byIdAndUser fid uid) with
    | none =>
      rw [(by simp [getShow, truthy, ht, hget, huid, hfind] :
        getShow st (some t) fid = notFound)] at hresp
      simp [notFound] at hresp
    | some g =>
      rw [(by simp [getShow, truthy, ht, hget, huid, hfind] :
        getShow st (some t) fid = { status := 200, body := .file g })] at hresp
      obtain rfl : g = f := by simpa using hresp
      have hmem := List.mem_of_find?_eq_some hfind
      have hp := List.find?_some hfind
      simp only [byIdAndUser, decide_eq_true_eq] at hp
      exact ⟨hmem, hp.1, hp.2⟩

/-- A state whose only node `fX` is owned by `uOther6`, with the live
session `auth_t6 → u6` for a different user. -/
def cStC6 : St :=
  { users := [],
    files := [{ id := "fX", userId := "uOther6", name := "x.txt",
                type := "file", isPublic := false, parentId := .rootZero,
                localPath := some "/tmp/files_manager/x6" }],
    cache := [{ key := "auth_t6", value := "u6", ttl := 86400 }],
    blobs := [] }

/-- Witness for C6: for requester `u6`, the foreign-owned id "fX" and the
nonexistent id "nope" both produce the identical 404 response. -/
theorem getShow_no_leakage_witness :
    getShow cStC6 (some "t6") "fX" = notFound ∧
    getShow cStC6 (some "t6") "nope" = notFound :=
  ⟨(getShow_no_leakage cStC6 "t6" "u6" "fX" (by decide) (by decide)
      (by decide)).1 (by decide),
   (getShow_no_leakage cStC6 "t6" "u6" "nope" (by decide) (by decide)
      (by decide)).1 (by decide)⟩

/-- Two disjoint windows of a duplicate-free list: an element of the window
starting at `k` does not occur in the window starting at `k + n`. -/
theorem nodup_page_disjoint {α : Type} (L : List α) (n k : Nat) (h : L.Nodup)
    (x : α) (hx : x ∈ (L.drop k).take n) : x ∉ (L.drop (k + n)).take n := by
  intro hx2
  have hM : (L.drop k).Nodup := h.sublist (List.drop_sublist k L)
  have hsplit : L.drop k = (L.drop k).take n ++ (L.drop k).drop n :=
    (List.take_append_drop n (L.drop k)).symm
  rw [hsplit] at hM
  rw [List.nodup_append] at hM
  have hd : L.drop (k + n) = (L.drop k).drop n := by
    rw [List.drop_drop, Nat.add_comm]
  rw [hd] at hx2
  exact hM.2.2 hx (List.take_subset n _ hx2)

/-- The root-level file of the C8 counterexample state. -/
def rootFileC8 : FileDoc :=
  { id := "r8", userId := "u8", name := "root.txt", type := "file",
    isPublic := false, parentId := .rootZero,
    localPath := some "/tmp/files_manager/r8" }

/-- A state with one root-level file owned by `u8` and the live session
`auth_t8 → u8`. -/
def cStC8 : St :=
  { users := [], files := [rootFileC8],
    cache := [{ key := "auth_t8", value := "u8", ttl := 86400 }],
    blobs := [] }

/-- C8 counterexample: when the parentId parameter is absent, the match key
is not the root sentinel.  In `cStC8`, user `u8` owns one root-level file,
yet page 0 of `getIndex` with the parameter absent is empty — it does not
start at offset 0 of the root-filtered dataset, because the default numeric
0 is converted by `ObjectId(0)` into a freshly generated ObjectId that
matches no stored node. -/
theorem getIndex_absent_param_not_root :
    getIndex cStC8 (some "t8") none 0 "freshOid8" =
      { status := 200, body := .files [] } ∧
    ((cStC8.files.filter (indexPred .rootZero "u8")).drop (0 * 20)).take 20
      = [rootFileC8] ∧
    getIndex cStC8 (some "t8") none 0 "freshOid8" ≠
      { status := 200,
        body := .files (((cStC8.files.filter
          (indexPred .rootZero "u8")).drop (0 * 20)).take 20) } :=
  ⟨rfl, rfl, by decide⟩

/-- C8 (amended): for an authenticated owner, a supplied parentId and page
p ≥ 0, the returned page is the window of length ≤ 20 at offset p × 20 of
the stored nodes filtered by exact parentId and userId, every returned node
belongs to the requester under the requested key, and pages p and p + 1 are
disjoint over a stable (duplicate-free) dataset; however, when the parentId
parameter is absent the match key is a freshly generated ObjectId — the
result is then empty, not the root listing. -/
theorem getIndex_pagination_amended (st : St) (t uid : String)
    (pidParam : Option String) (page : Nat) (freshOid : String)
    (ht : t ≠ "") (hget : RedisClient.get st.cache ("auth_" ++ t) = some uid)
    (huid : uid ≠ "")
    (hfresh : ∀ f ∈ st.files, f.parentId ≠ .oid freshOid) :
    getIndex st (some t) pidParam page freshOid =
      { status := 200,
        body := .files (((st.files.filter
          (indexPred (indexMatchKey pidParam freshOid) uid)).drop
            (page * 20)).take 20) } ∧
    (((st.files.filter (indexPred (indexMatchKey pidParam freshOid)
        uid)).drop (page * 20)).take 20).length ≤ 20 ∧
    (∀ f ∈ ((st.files.filter (indexPred (indexMatchKey pidParam freshOid)
        uid)).drop (page * 20)).take 20,
      f.userId = uid ∧ f.parentId = indexMatchKey pidParam freshOid) ∧
    (pidParam = none →
      getIndex st (some t) pidParam page freshOid =
        { status := 200, body := .files [] }) ∧
    (st.files.Nodup →
      ∀ f ∈ ((st.files.filter (indexPred (indexMatchKey pidParam freshOid)
          uid)).drop (page * 20)).take 20,
        f ∉ ((st.files.filter (indexPred (indexMatchKey pidParam freshOid)
          uid)).drop ((page + 1) * 20)).take 20) := by
  refine ⟨?_, ?_, ?_, ?_, ?_⟩
  · simp [getIndex, truthy, ht, hget, huid]
  · exact List.length_take_le 20 _
  · intro f hf
    have hmem : f ∈ st.files.filter
        (indexPred (indexMatchKey pidParam freshOid) uid) :=
      List.drop_subset _ _ (List.take_subset _ _ hf)
    have := List.of_mem_filter hmem
    simp only [indexPred, decide_eq_true_eq] at this
    exact ⟨this.2, this.1⟩
  · intro hnone
    subst hnone
    have hkey : indexMatchKey none freshOid = .oid freshOid := rfl
    have hempty : st.files.filter
        (indexPred (indexMatchKey none freshOid) uid) = [] := by
      rw [List.filter_eq_nil_iff]
      intro f hf
      simp only [indexPred, hkey, decide_eq_true_eq]
      intro hc
      exact hfresh f hf hc.1
    simp [getIndex, truthy, ht, hget, huid, hempty]
  · intro hnodup f hf
    have hmn : (st.files.filter
        (indexPred (indexMatchKey pidParam freshOid) uid)).Nodup :=
      hnodup.filter _
    have := nodup_page_disjoint _ 20 (page * 20) hmn f hf
    rwa [(by rw [Nat.succ_mul] : (page + 1) * 20 = page * 20 + 20)]

/-- Witness for the amended C8 theorem: listing with parentId "0" (root)
for `u8` at page 0 returns exactly the 20-window of the root-filtered
dataset. -/
theorem getIndex_pagination_amended_witness :
    getIndex cStC8 (some "t8") (some "0") 0 "freshOid8" =
      { status := 200,
        body := .files (((cStC8.files.filter
          (indexPred (indexMatchKey (some "0") "freshOid8") "u8")).drop
            (0 * 20)).take 20) } :=
  (getIndex_pagination_amended cStC8 "t8" "u8" (some "0") 0 "freshOid8"
    (by decide) (by decide) (by decide) (by decide)).1

/-- Witness for the amended C5 theorem: the owner's valid token gets the
400 folder error for `d5`, while an anonymous request and a non-owner's
valid token (`auth_tOther5 → uOther5`) each get 404. -/
theorem getFile_folder_content_amended_witness :
    getFile cStC5 (some "t5") "d5" none =
      { status := 400, body := .error "A folder doesn't have content" } ∧
    getFile cStC5 none "d5" none = notFound ∧
    getFile cStC5 (some "tOther5") "d5" none = notFound :=
  ⟨(getFile_folder_content_amended cStC5 "d5"
      { id := "d5", userId := "u5", name := "Docs", type := "folder",
        isPublic := false, parentId := .rootZero, localPath := none }
      (some "t5") none (by decide) (by decide)).1
      (Or.inr ⟨"t5", rfl, by decide, by decide, by decide⟩),
   (getFile_folder_content_amended cStC5 "d5"
      { id := "d5", userId := "u5", name := "Docs", type := "folder",
        isPublic := false, parentId := .rootZero, localPath := none }
      (some "t5") none (by decide) (by decide)).2.1 (by decide),
   (getFile_folder_content_amended cStC5 "d5"
      { id := "d5", userId := "u5", name := "Docs", type := "folder",
        isPublic := false, parentId := .rootZero, localPath := none }
      (some "t5") none (by decide) (by decide)).2.2 (by decide) "tOther5"
      (Or.inr ⟨"uOther5", by decide, by decide⟩)⟩

/-- C4: visibility gating of content retrieval.  For a private non-folder
node whose blob is on disk: an anonymous request and a request with a valid
token of a non-owner both return 404; the owner's valid token returns 200
with the stored bytes; and after the owner publishes the node, an anonymous
request returns 200 with the same bytes. -/
theorem getFile_visibility_gating (st : St) (t fid p : String)
    (file : FileDoc) (bs : List Nat)
    (hfind : st.files.find? (byId fid) = some file)
    (htype : file.type ≠ "folder")
    (hpriv : file.isPublic = false)
    (hpath : file.localPath = some p)
    (hblob : st.blobs.find? (fun b => b.1 == p) = some (p, bs))
    (ht : t ≠ "")
    (hown : RedisClient.get st.cache ("auth_" ++ t) = some file.userId)
    (huid : file.userId ≠ "") :
    getFile st none fid none = notFound ∧
    (∀ t2, (RedisClient.get st.cache ("auth_" ++ t2) = none ∨
        ∃ v, RedisClient.get st.cache ("auth_" ++ t2) = some v ∧
          v ≠ file.userId) →
      getFile st (some t2) fid none = notFound) ∧
    getFile st (some t) fid none = { status := 200, body := .bytes bs } ∧
    ((putPublish st (some t) fid).1.status = 200 ∧
      getFile (putPublish st (some t) fid).2 none fid none =
        { status := 200, body := .bytes bs }) := by
  have hfu := find?_byIdAndUser_of_byId st.files file fid hfind
  have hupd := updateFirst_find?_byId st.files file fid true hfind
  refine ⟨?_, ?_, ?_, ?_, ?_⟩
  · simp [getFile, hfind, truthy, hpriv]
  · intro t2 h
    by_cases ht2 : t2 = ""
    · simp [getFile, hfind, truthy, ht2, hpriv]
    · rcases h with hg | ⟨v, hg, hv⟩
      · simp [getFile, hfind, truthy, ht2, hg, hpriv]
      · simp [getFile, hfind, truthy, ht2, hg, hpriv, hv]
  · simp [getFile, hfind, truthy, ht, hown, hpriv, huid, htype, hpath, hblob]
  · simp [putPublish, putVisibility, truthy, ht, hown, huid, hfu, hupd]
  · simp [putPublish, putVisibility, truthy, ht, hown, huid, hfu, hupd,
      getFile, htype, hpath, hblob]

/-- The private file node of the C4 witness state. -/
def fileC4 : FileDoc :=
  { id := "fY", userId := "uF", name := "y.txt", type := "file",
    isPublic := false, parentId := .rootZero,
    localPath := some "/tmp/files_manager/y" }

/-- A state with the private file `fY` of `uF`, its blob, the owner session
`auth_tF → uF` and a foreign session `auth_tG → uG`. -/
def cStC4 : St :=
  { users := [], files := [fileC4],
    cache := [{ key := "auth_tF", value := "uF", ttl := 86400 },
              { key := "auth_tG", value := "uG", ttl := 86400 }],
    blobs := [("/tmp/files_manager/y", [104, 105])] }

/-- Witness for C4 at `cStC4`: anonymous 404, foreign token 404, owner 200
with the bytes, and after publish an anonymous 200 with the same bytes. -/
theorem getFile_visibility_gating_witness :
    getFile cStC4 none "fY" none = notFound ∧
    getFile cStC4 (some "tG") "fY" none = notFound ∧
    getFile cStC4 (some "tF") "fY" none =
      { status := 200, body := .bytes [104, 105] } ∧
    getFile (putPublish cStC4 (some "tF") "fY").2 none "fY" none =
      { status := 200, body := .bytes [104, 105] } :=
  ⟨(getFile_visibility_gating cStC4 "tF" "fY" "/tmp/files_manager/y" fileC4
      [104, 105] (by decide) (by decide) (by decide) (by decide) (by decide)
      (by decide) (by decide) (by decide)).1,
   (getFile_visibility_gating cStC4 "tF" "fY" "/tmp/files_manager/y" fileC4
      [104, 105] (by decide) (by decide) (by decide) (by decide) (by decide)
      (by decide) (by decide) (by decide)).2.1 "tG"
      (Or.inr ⟨"uG", by decide, by decide⟩),
   (getFile_visibility_gating cStC4 "tF" "fY" "/tmp/files_manager/y" fileC4
      [104, 105] (by decide) (by decide) (by decide) (by decide) (by decide)
      (by decide) (by decide) (by decide)).2.2.1,
   (getFile_visibility_gating cStC4 "tF" "fY" "/tmp/files_manager/y" fileC4
      [104, 105] (by decide) (by decide) (by decide) (by decide) (by decide)
      (by decide) (by decide) (by decide)).2.2.2.2⟩

/-- SET of a key makes a subsequent GET of that key return the value. -/
theorem get_set_self (c : List CacheEntry) (k v : String) (d : Nat) :
    RedisClient.get (RedisClient.set c k v d) k = some v := by
  simp [RedisClient.get, RedisClient.set]

/-- SET of a key stores an entry carrying the requested TTL. -/
theorem find?_set_self (c : List CacheEntry) (k v : String) (d : Nat) :
    (RedisClient.set c k v d).find? (fun e => e.key == k) =
      some { key := k, value := v, ttl := d } := by
  simp [RedisClient.set]

/-- C1: authenticate (getConnect).  A missing or non-Basic header is 401;
decoding the header and splitting on ':' must yield a non-empty email
(element 0) and password (element 1), else 401; when a stored user matches
the email and the SHA1 digest of the password, the response is 200 with the
fresh token and the cache gains `auth_<token> → user id` with TTL 86400;
when no user matches, 401 (state unchanged in every failure case). -/
theorem getConnect_authentication (st : St) (hdr : String)
    (b64decode sha1 : String → String) (tok : String)
    (hstart : jsStartsWith hdr "Basic " = true) :
    getConnect st none b64decode sha1 tok = (unauthorized, st) ∧
    (∀ h2 : String, jsStartsWith h2 "Basic " = false →
      getConnect st (some h2) b64decode sha1 tok = (unauthorized, st)) ∧
    (((connectParts hdr b64decode).getD 0 "" = "" ∨
        (connectParts hdr b64decode).length < 2 ∨
        (connectParts hdr b64decode).getD 1 "" = "") →
      getConnect st (some hdr) b64decode sha1 tok = (unauthorized, st)) ∧
    (¬ ((connectParts hdr b64decode).getD 0 "" = "" ∨
        (connectParts hdr b64decode).length < 2 ∨
        (connectParts hdr b64decode).getD 1 "" = "") →
      (st.users.find? (userPred ((connectParts hdr b64decode).getD 0 "")
          (sha1 ((connectParts hdr b64decode).getD 1 ""))) = none →
        getConnect st (some hdr) b64decode sha1 tok = (unauthorized, st)) ∧
      (∀ u, st.users.find? (userPred ((connectParts hdr b64decode).getD 0 "")
          (sha1 ((connectParts hdr b64decode).getD 1 ""))) = some u →
        getConnect st (some hdr) b64decode sha1 tok =
          ({ status := 200, body := .token tok },
           { st with cache :=
               RedisClient.set st.cache ("auth_" ++ tok) u.id 86400 }) ∧
        RedisClient.get (getConnect st (some hdr) b64decode sha1 tok).2.cache
          ("auth_" ++ tok) = some u.id ∧
        (getConnect st (some hdr) b64decode sha1 tok).2.cache.find?
          (fun e => e.key == "auth_" ++ tok) =
          some { key := "auth_" ++ tok, value := u.id, ttl := 86400 })) := by
  refine ⟨rfl, ?_, ?_, ?_⟩
  · intro h2 hs2
    have hns : ¬ jsStartsWith h2 "Basic " = true := by simp [hs2]
    simp only [getConnect]
    rw [if_pos hns]
  · intro hbad
    have hns : ¬ ¬ jsStartsWith hdr "Basic " = true := not_not_intro hstart
    simp only [getConnect]
    rw [if_neg hns, if_pos hbad]
  · intro hgood
    have hns : ¬ ¬ jsStartsWith hdr "Basic " = true := not_not_intro hstart
    have hmain : ∀ r, st.users.find?
        (userPred ((connectParts hdr b64decode).getD 0 "")
          (sha1 ((connectParts hdr b64decode).getD 1 ""))) = r →
        getConnect st (some hdr) b64decode sha1 tok =
          (match r with
           | none => (unauthorized, st)
           | some u =>
             ({ status := 200, body := .token tok },
              { st with cache :=
                  RedisClient.set st.cache ("auth_" ++ tok) u.id 86400 })) := by
      intro r hr
      simp only [getConnect]
      rw [if_neg hns, if_neg hgood, hr]
    constructor
    · intro hfind
      exact hmain none hfind
    · intro u hfind
      have h1 := hmain (some u) hfind
      refine ⟨h1, ?_, ?_⟩
      · rw [h1]
        exact get_set_self st.cache ("auth_" ++ tok) u.id 86400
      · rw [h1]
        exact find?_set_self st.cache ("auth_" ++ tok) u.id 86400

/-- The stored user of the C1 witness: digest of "pw" under `sha1C1`. -/
def userC1 : UserDoc := { id := "u1", email := "bob@x", password := "sha1PW" }

/-- The C1 witness state: one stored user, empty cache. -/
def cStC1 : St := { users := [userC1], files := [], cache := [], blobs := [] }

/-- Concrete base64 decoding used by the C1 witness
("Ym9iQHg6cHc=" is base64 of "bob@x:pw"). -/
def b64C1 : String → String :=
  fun s => if s = "Ym9iQHg6cHc=" then "bob@x:pw" else ""

/-- Concrete SHA1 stand-in used by the C1 witness. -/
def sha1C1 : String → String := fun s => if s = "pw" then "sha1PW" else ""

/-- Witness for C1: the header "Basic Ym9iQHg6cHc=" authenticates `userC1`
and mints token "tok1", stored with TTL 86400. -/
theorem getConnect_authentication_witness :
    getConnect cStC1 (some "Basic Ym9iQHg6cHc=") b64C1 sha1C1 "tok1" =
      ({ status := 200, body := .token "tok1" },
       { cStC1 with cache :=
           RedisClient.set cStC1.cache ("auth_" ++ "tok1") "u1" 86400 }) ∧
    RedisClient.get (getConnect cStC1 (some "Basic Ym9iQHg6cHc=") b64C1
        sha1C1 "tok1").2.cache ("auth_" ++ "tok1") = some "u1" ∧
    (getConnect cStC1 (some "Basic Ym9iQHg6cHc=") b64C1 sha1C1
        "tok1").2.cache.find? (fun e => e.key == "auth_" ++ "tok1") =
      some { key := "auth_" ++ "tok1", value := "u1", ttl := 86400 } :=
  ((getConnect_authentication cStC1 "Basic Ym9iQHg6cHc=" b64C1 sha1C1 "tok1"
      (by decide)).2.2.2 (by decide)).2 userC1 (by decide)

/-- A visibility toggle (publish/unpublish) never changes any localPath. -/
theorem putVisibility_files_map (st : St) (tok : Option String)
    (fid : String) (v : Bool) :
    (putVisibility st tok fid v).2.files.map FileDoc.localPath =
      st.files.map FileDoc.localPath := by
  cases h1 : truthy tok with
  | none => simp [putVisibility, h1]
  | some t =>
    cases h2 : truthy (RedisClient.get st.cache ("auth_" ++ t)) with
    | none => simp [putVisibility, h1, h2]
    | some uid =>
      cases h3 : st.files.find? (byIdAndUser fid uid) with
      | none => simp [putVisibility, h1, h2, h3]
      | some f =>
        cases h4 : (updateFirst (byIdAndUser fid uid)
            (fun g => { g with isPublic := v }) st.files).find? (byId fid) with
        | none => simp [putVisibility, h1, h2, h3, h4, updateFirst_map_localPath]
        | some g => simp [putVisibility, h1, h2, h3, h4, updateFirst_map_localPath]

/-- getConnect never touches the files collection. -/
theorem getConnect_files_unchanged (st : St) (hdr : Option String)
    (b s : String → String) (tk : String) :
    (getConnect st hdr b s tk).2.files = st.files := by
  cases hdr with
  | none => rfl
  | some h =>
    simp only [getConnect]
    by_cases hns : ¬ jsStartsWith h "Basic " = true
    · rw [if_pos hns]
    · rw [if_neg hns]
      by_cases hbad : ((connectParts h b).getD 0 "" = "" ∨
          (connectParts h b).length < 2 ∨ (connectParts h b).getD 1 "" = "")
      · rw [if_pos hbad]
      · rw [if_neg hbad]
        cases hf : st.users.find? (userPred ((connectParts h b).getD 0 "")
            (s ((connectParts h b).getD 1 ""))) <;> simp [hf]

/-- getDisconnect never touches the files collection. -/
theorem getDisconnect_files_unchanged (st : St) (tok : Option String) :
    (getDisconnect st tok).2.files = st.files := by
  cases h1 : truthy tok with
  | none => simp [getDisconnect, h1]
  | some t =>
    cases h2 : truthy (RedisClient.get st.cache ("auth_" ++ t)) with
    | none => simp [getDisconnect, h1, h2]
    | some v => simp [getDisconnect, h1, h2]

/-- postUpload either leaves the files collection unchanged (every failure)
or appends exactly one node, with no localPath for a folder and the blob
path folderPath/freshName for a file or image. -/
theorem postUpload_localPath_shape (st : St) (token : Option String)
    (body : UploadBody) (freshId freshName folderPath : String)
    (dec : String → List Nat) :
    (postUpload st token body freshId freshName folderPath dec).2.files
        = st.files ∨
    ((postUpload st token body freshId freshName folderPath dec).1.status
        = 201 ∧
      ∃ d, (postUpload st token body freshId freshName folderPath
              dec).2.files = st.files ++ [d] ∧ d.type = body.type ∧
        ((d.type = "folder" ∧ d.localPath = none) ∨
         (d.type ≠ "folder" ∧
           d.localPath = some (folderPath ++ "/" ++ freshName)))) := by
  cases h1 : truthy token with
  | none => exact Or.inl (by simp [postUpload, h1])
  | some t =>
    cases h2 : truthy (RedisClient.get st.cache ("auth_" ++ t)) with
    | none => exact Or.inl (by simp [postUpload, h1, h2])
    | some uid =>
      by_cases h3 : body.name = ""
      · exact Or.inl (by simp [postUpload, h1, h2, h3])
      · by_cases h4 : body.type ∈ (["folder", "file", "image"] : List String)
        · by_cases h5 : body.data = "" ∧ body.type ≠ "folder"
          · exact Or.inl (by simp [postUpload, h1, h2, h3, h4, h5])
          · cases h6 : parentCheck st.files body.parentId with
            | some r =>
              exact Or.inl (by simp [postUpload, h1, h2, h3, h4, h5, h6])
            | none =>
              by_cases h7 : body.type = "folder"
              · refine Or.inr ⟨by simp [postUpload, h1, h2, h3, h4, h5, h6, h7],
                  { id := freshId, userId := uid, name := body.name, type := body.type,
                    isPublic := body.isPublic, parentId := body.parentId,
                    localPath := none }, ?_, rfl, Or.inl ⟨h7, rfl⟩⟩
                simp [postUpload, h1, h2, h3, h4, h5, h6, h7]
              · have hdd : body.data ≠ "" := fun hc => h5 ⟨hc, h7⟩
                refine Or.inr ⟨by simp [postUpload, h1, h2, h3, h4, h5, h6, h7, hdd],
                  { id := freshId, userId := uid, name := body.name, type := body.type,
                    isPublic := body.isPublic, parentId := body.parentId,
                    localPath := some (folderPath ++ "/" ++ freshName) }, ?_, rfl,
                  Or.inr ⟨h7, rfl⟩⟩
                simp [postUpload, h1, h2, h3, h4, h5, h6, h7, hdd]
        · exact Or.inl (by simp [postUpload, h1, h2, h3, h4])

/-- C9: localPath invariant.  A node created by postUpload has no localPath
field when its type is folder, and has localPath set to the blob path from
the moment of creation when its type is file or image; no other operation
(publish, unpublish, connect, disconnect) ever adds, removes, or changes a
localPath, and postUpload itself only appends. -/
theorem localPath_invariant (st : St) (token tok2 tok3 tok4 : Option String)
    (body : UploadBody) (freshId freshName folderPath : String)
    (dec : String → List Nat) (fid fid2 : String)
    (hdr : Option String) (b s : String → String) (tk : String) :
    ((postUpload st token body freshId freshName folderPath dec).2.files
        = st.files ∨
      ((postUpload st token body freshId freshName folderPath dec).1.status
          = 201 ∧
        ∃ d, (postUpload st token body freshId freshName folderPath
                dec).2.files = st.files ++ [d] ∧ d.type = body.type ∧
          ((d.type = "folder" ∧ d.localPath = none) ∨
           (d.type ≠ "folder" ∧
             d.localPath = some (folderPath ++ "/" ++ freshName))))) ∧
    (putPublish st tok2 fid).2.files.map FileDoc.localPath =
      st.files.map FileDoc.localPath ∧
    (putUnpublish st tok3 fid2).2.files.map FileDoc.localPath =
      st.files.map FileDoc.localPath ∧
    (getConnect st hdr b s tk).2.files = st.files ∧
    (getDisconnect st tok4).2.files = st.files :=
  ⟨postUpload_localPath_shape st token body freshId freshName folderPath dec,
   putVisibility_files_map st tok2 fid true,
   putVisibility_files_map st tok3 fid2 false,
   getConnect_files_unchanged st hdr b s tk,
   getDisconnect_files_unchanged st tok4⟩

/-- A state with one file node `f9` owned by `u9` and the session
`auth_t9 → u9`, used by the C9 witness. -/
def cStC9 : St :=
  { users := [],
    files := [{ id := "f9", userId := "u9", name := "n9.txt", type := "file",
                isPublic := false, parentId := .rootZero,
                localPath := some "/tmp/files_manager/n9" }],
    cache := [{ key := "auth_t9", value := "u9", ttl := 86400 }],
    blobs := [("/tmp/files_manager/n9", [110])] }

/-- Witness for C9 at `cStC9`: publish and disconnect leave every localPath
(and the files collection) unchanged. -/
theorem localPath_invariant_witness :
    (putPublish cStC9 (some "t9") "f9").2.files.map FileDoc.localPath =
      cStC9.files.map FileDoc.localPath ∧
    (getDisconnect cStC9 (some "t9")).2.files = cStC9.files :=
  ⟨(localPath_invariant cStC9 (some "t9") (some "t9") (some "t9") (some "t9")
      { name := "n", type := "file", parentId := .rootZero, isPublic := false,
        data := "eA==" } "fz" "uz" "/tmp/files_manager" (fun _ => [120])
      "f9" "f9" none id id "tz").2.1,
   (localPath_invariant cStC9 (some "t9") (some "t9") (some "t9") (some "t9")
      { name := "n", type := "file", parentId := .rootZero, isPublic := false,
        data := "eA==" } "fz" "uz" "/tmp/files_manager" (fun _ => [120])
      "f9" "f9" none id id "tz").2.2.2.2⟩
